import Mathlib

/-!
Verification of the oglwrap GPU-resource wrapper layer.

This file gives a shallow embedding of the parts of the oglwrap sources
the specification claims are about:

* the buffer bind-state tracking of `buffer.hpp`
  (`BufferObject::bind / isBound / Unbind / unbind / Data / data /
  SubData / subData / TypedMap`),
* the transform-feedback state machine of `oglwrap/transfeedback.hpp`
  (`TransformFeedback::begin / end / pause / resume / ~TransformFeedback`),
* the `Bitfield` utility of `general.hpp`,

together with theorems settling the specification claims. Driver state is
passed explicitly; the driver calls an operation issues are returned as an
explicit list, so that "no driver call is made" and "the end call is
issued exactly once before the delete call" are statable. The checking
macros of `debug/binding.hpp` and the reference-counted handle classes of
`general.hpp`/`globjects.hpp` are not among the sources; those pieces are
modelled from the spec and marked as such in their doc comments.
-/

namespace Oglwrap

/-- Buffer binding target categories (`BufferType` in buffer.hpp). Only
the identities of the targets matter to the claims, not their GLenum
values, so they are modelled as an enumeration. -/
inductive BufferType
  | Array
  | ElementArray
  | Texture
  deriving DecidableEq

/-- A `BufferUsage` enum value; it is passed through to the driver
unchanged, so it is modelled by its underlying GLenum value. -/
abbrev BufferUsage := Nat

/-- The driver's binding state, as read back by `glGetIntegerv`:
`boundBuffer t` is the buffer id currently bound to target `t`
(0 is the default object), and `vertexArrayBinding` is the value of
`GL_VERTEX_ARRAY_BINDING`. -/
structure GLState where
  boundBuffer : BufferType → Nat
  vertexArrayBinding : Nat

/-- The errors the validation layer reports (spec taxonomy: BindingError
for operations on a resource that is not the current one, StateError for
invalid session-state transitions). -/
inductive OglError
  | BindingError
  | StateError
  deriving DecidableEq

/-- Driver calls issued by the buffer operations. `Ptr` stands for the
client memory pointer that is passed through to the driver unchanged. -/
inductive BufferCall (Ptr : Type) where
  | bufferData (target : BufferType) (size : Nat) (ptr : Ptr) (usage : BufferUsage)
  | bufferSubData (target : BufferType) (offset : Int) (size : Nat) (ptr : Ptr)
  | mapBuffer (target : BufferType) (access : Nat)
  | getBufferParameteriv (target : BufferType)
  deriving DecidableEq

/-- A `std::vector<GLtype>` as observed by the buffer operations: the
source reads only its element count `.size()` and its storage pointer
`.data()`. -/
structure CppVector (Ptr : Type) where
  size : Nat
  data : Ptr

/-- Modelled from the spec: the `CHECK_BINDING` validation guard
(`debug/binding.hpp` is not among the sources). Per the spec,
`require_current()` is active only when validation is enabled and fails
with a BindingError if `is_current()` is false; with validation disabled
no check is performed. -/
def CHECK_BINDING (bindcheck : Bool) (isCurrent : Bool) : Option OglError :=
  if bindcheck && !isCurrent then some OglError.BindingError else none

/-- Modelled from the spec: the `CHECK_BINDING2` guard used by
`BufferObject::unbind` (`debug/binding.hpp` is not among the sources),
with the same require-current semantics as `CHECK_BINDING`. -/
def CHECK_BINDING2 (bindcheck : Bool) (isCurrent : Bool) : Option OglError :=
  if bindcheck && !isCurrent then some OglError.BindingError else none

/-- Modelled from the spec: the `CHECK_FOR_DEFAULT_BINDING_EXPLICIT`
guard (`debug/binding.hpp` is not among the sources): when validation is
enabled it reports a BindingError if the queried binding is the default
object 0 (spec taxonomy, section 7). -/
def CHECK_FOR_DEFAULT_BINDING_EXPLICIT (bindcheck : Bool) (binding : Nat) :
    Option OglError :=
  if bindcheck && (binding == 0) then some OglError.BindingError else none

/-- `BufferObject::bind`: issues `glBindBuffer(BUFFER_TYPE, buffer_)`,
making `buffer_` the buffer bound to the object's target. -/
def BufferObject.bind (bufferType : BufferType) (buffer_ : Nat) (s : GLState) :
    GLState :=
  { s with boundBuffer := fun t => if t = bufferType then buffer_ else s.boundBuffer t }

/-- `BufferObject::isBound`: reads the current binding for the target via
`glGetIntegerv(getBindingTarget(BUFFER_TYPE), ...)` and compares it with
`buffer_`. -/
def BufferObject.isBound (bufferType : BufferType) (buffer_ : Nat) (s : GLState) :
    Bool :=
  buffer_ == s.boundBuffer bufferType

/-- `BufferObject::Unbind` (static): issues `glBindBuffer(BUFFER_TYPE, 0)`. -/
def BufferObject.Unbind (bufferType : BufferType) (s : GLState) : GLState :=
  BufferObject.bind bufferType 0 s

/-- `BufferObject::unbind` (bind-checked member): performs
`CHECK_BINDING2()` and then calls the static `Unbind`. -/
def BufferObject.unbind (bindcheck : Bool) (bufferType : BufferType)
    (buffer_ : Nat) (s : GLState) : Except OglError GLState :=
  match CHECK_BINDING2 bindcheck (BufferObject.isBound bufferType buffer_ s) with
  | some e => Except.error e
  | none => Except.ok (BufferObject.Unbind bufferType s)

/-- `BufferObject::Data(GLsizei size, const GLtype* data, usage)` (static
pointer overload): issues exactly
`glBufferData(BUFFER_TYPE, size, data, usage)`. -/
def BufferObject.Data {Ptr : Type} (bufferType : BufferType) (size : Nat)
    (ptr : Ptr) (usage : BufferUsage) : List (BufferCall Ptr) :=
  [BufferCall.bufferData bufferType size ptr usage]

/-- `BufferObject::Data(const std::vector<GLtype>& data, usage)` (static
vector overload): issues exactly
`glBufferData(BUFFER_TYPE, data.size() * sizeof(GLtype), data.data(), usage)`.
`sizeofGLtype` is `sizeof(GLtype)`. -/
def BufferObject.DataVec {Ptr : Type} (bufferType : BufferType)
    (sizeofGLtype : Nat) (v : CppVector Ptr) (usage : BufferUsage) :
    List (BufferCall Ptr) :=
  [BufferCall.bufferData bufferType (v.size * sizeofGLtype) v.data usage]

/-- `BufferObject::SubData(GLintptr offset, GLsizei size, const GLtype* data)`
(static pointer overload): issues exactly
`glBufferSubData(BUFFER_TYPE, offset, size, data)`. -/
def BufferObject.SubData {Ptr : Type} (bufferType : BufferType) (offset : Int)
    (size : Nat) (ptr : Ptr) : List (BufferCall Ptr) :=
  [BufferCall.bufferSubData bufferType offset size ptr]

/-- `BufferObject::SubData(GLintptr offset, const std::vector<GLtype>& data)`
(static vector overload): issues exactly
`glBufferSubData(BUFFER_TYPE, offset, data.size() * sizeof(GLtype), data.data())`. -/
def BufferObject.SubDataVec {Ptr : Type} (bufferType : BufferType)
    (offset : Int) (sizeofGLtype : Nat) (v : CppVector Ptr) :
    List (BufferCall Ptr) :=
  [BufferCall.bufferSubData bufferType offset (v.size * sizeofGLtype) v.data]

/-- `BufferObject::data(size, data, usage)` (bind-checked member):
performs `CHECK_BINDING()`, the extra `GL_VERTEX_ARRAY_BINDING` default
check for the `Array` target, and then calls the static `Data`. An error
result means the operation failed before any driver call was made. -/
def BufferObject.data {Ptr : Type} (bindcheck : Bool) (bufferType : BufferType)
    (buffer_ : Nat) (size : Nat) (ptr : Ptr) (usage : BufferUsage)
    (s : GLState) : Except OglError (List (BufferCall Ptr)) :=
  match CHECK_BINDING bindcheck (BufferObject.isBound bufferType buffer_ s) with
  | some e => Except.error e
  | none =>
    match (if bufferType = BufferType.Array then
             CHECK_FOR_DEFAULT_BINDING_EXPLICIT bindcheck s.vertexArrayBinding
           else none) with
    | some e => Except.error e
    | none => Except.ok (BufferObject.Data bufferType size ptr usage)

/-- `BufferObject::subData(offset, size, data)` (bind-checked member):
performs `CHECK_BINDING()`, the extra `GL_VERTEX_ARRAY_BINDING` default
check for the `Array` target, and then calls the static `SubData`. -/
def BufferObject.subData {Ptr : Type} (bindcheck : Bool)
    (bufferType : BufferType) (buffer_ : Nat) (offset : Int) (size : Nat)
    (ptr : Ptr) (s : GLState) : Except OglError (List (BufferCall Ptr)) :=
  match CHECK_BINDING bindcheck (BufferObject.isBound bufferType buffer_ s) with
  | some e => Except.error e
  | none =>
    match (if bufferType = BufferType.Array then
             CHECK_FOR_DEFAULT_BINDING_EXPLICIT bindcheck s.vertexArrayBinding
           else none) with
    | some e => Except.error e
    | none => Except.ok (BufferObject.SubData bufferType offset size ptr)

/-- Modelled from the spec: the `CHECK_FOR_DEFAULT_BINDING` guard
(`debug/binding.hpp` is not among the sources), same default-binding
semantics as its `_EXPLICIT` variant: when validation is enabled it
reports a BindingError if the queried binding is the default object 0. -/
def CHECK_FOR_DEFAULT_BINDING (bindcheck : Bool) (binding : Nat) :
    Option OglError :=
  if bindcheck && (binding == 0) then some OglError.BindingError else none

/-- The `TypedMap` whole-buffer constructor: it performs
`CHECK_FOR_DEFAULT_BINDING(getBindingTarget(BUFFER_TYPE))` — the
constructor holds no buffer member, so the only check available to it is
that the target's current binding is not the default object 0 — and then
issues `glMapBuffer` followed by the `glGetBufferParameteriv` size
query. -/
def BufferObject.typedMap (Ptr : Type) (bindcheck : Bool)
    (bufferType : BufferType) (access : Nat) (s : GLState) :
    Except OglError (List (BufferCall Ptr)) :=
  match CHECK_FOR_DEFAULT_BINDING bindcheck (s.boundBuffer bufferType) with
  | some e => Except.error e
  | none =>
    Except.ok [BufferCall.mapBuffer bufferType access,
               BufferCall.getBufferParameteriv bufferType]

/-- A concrete driver state used to instantiate theorems: nothing is
bound anywhere and no vertex array object is bound. -/
def freshState : GLState :=
  { boundBuffer := fun _ => 0, vertexArrayBinding := 0 }

/-- A concrete driver state with buffer 5 bound to every target: any
resource with a different id is not the current one. -/
def boundFiveState : GLState :=
  { boundBuffer := fun _ => 5, vertexArrayBinding := 0 }

/-- Primitive modes for transform feedback (`TFB_PrimType`); the claims
do not depend on the particular mode. -/
inductive TFB_PrimType
  | Points
  | Lines
  | Triangles
  deriving DecidableEq

/-- Driver calls issued by the `TransformFeedback` wrapper and by the
reference-counted handle holding its id. -/
inductive TFCall where
  | bindTransformFeedback (id : Nat)
  | beginTransformFeedback (mode : TFB_PrimType)
  | endTransformFeedback
  | pauseTransformFeedback
  | resumeTransformFeedback
  | deleteTransformFeedbacks (id : Nat)
  deriving DecidableEq

/-- `enum TFBstate { none, working, paused }` from transfeedback.hpp.
`none` is the Idle state, `working` the Active state. -/
inductive TFBstate
  | none
  | working
  | paused
  deriving DecidableEq

/-- A `TransformFeedback` object: the id held by its `handle` member and
its current `state`. -/
structure TransformFeedback where
  handle : Nat
  state : TFBstate
  deriving DecidableEq

/-- `TransformFeedback::bind`: issues
`glBindTransformFeedback(GL_TRANSFORM_FEEDBACK, handle)`. -/
def TransformFeedback.bind (tf : TransformFeedback) :
    TransformFeedback × List TFCall :=
  (tf, [TFCall.bindTransformFeedback tf.handle])

/-- `TransformFeedback::unbind`: issues
`glBindTransformFeedback(GL_TRANSFORM_FEEDBACK, 0)`. -/
def TransformFeedback.unbind (tf : TransformFeedback) :
    TransformFeedback × List TFCall :=
  (tf, [TFCall.bindTransformFeedback 0])

/-- `TransformFeedback::begin(mode)`: sets `state = working` and issues
`glBeginTransformFeedback(mode)`; the source performs no check of the
previous state. -/
def TransformFeedback.begin (tf : TransformFeedback) (mode : TFB_PrimType) :
    TransformFeedback × List TFCall :=
  ({ tf with state := TFBstate.working }, [TFCall.beginTransformFeedback mode])

/-- `TransformFeedback::end`: sets `state = none` and issues
`glEndTransformFeedback()`. -/
def TransformFeedback.end_ (tf : TransformFeedback) :
    TransformFeedback × List TFCall :=
  ({ tf with state := TFBstate.none }, [TFCall.endTransformFeedback])

/-- `TransformFeedback::pause`: sets `state = paused` and issues
`glPauseTransformFeedback()`. -/
def TransformFeedback.pause (tf : TransformFeedback) :
    TransformFeedback × List TFCall :=
  ({ tf with state := TFBstate.paused }, [TFCall.pauseTransformFeedback])

/-- `TransformFeedback::resume`: sets `state = working` and issues
`glResumeTransformFeedback()`. -/
def TransformFeedback.resume (tf : TransformFeedback) :
    TransformFeedback × List TFCall :=
  ({ tf with state := TFBstate.working }, [TFCall.resumeTransformFeedback])

/-- Modelled from the spec: `ObjectExt::isDeletable` (the handle class of
general.hpp/globjects.hpp is not among the sources). The destructor's own
doc comment says "Deletes the transform feedback, if only one instance of
it exists": the handle is deletable exactly when this owner is the last
one, i.e. the reference count is 1. -/
def isDeletable (refcount : Nat) : Bool :=
  refcount == 1

/-- Modelled from the spec: destruction of the reference-counted handle
member (general.hpp/globjects.hpp is not among the sources). Per the spec,
release decrements the refcount and, at zero, issues the deletion call
(`glDeleteTransformFeedbacks`). -/
def handleReleaseCalls (id : Nat) (refcount : Nat) : List TFCall :=
  if refcount - 1 == 0 then [TFCall.deleteTransformFeedbacks id] else []

/-- `TransformFeedback::~TransformFeedback`, run while the shared handle
has `refcount` owners including this one: if this is not the last owner
the body returns early; otherwise, if the state is not `none`, it calls
`bind()` and then `end()`. In every case the handle member is destroyed
afterwards, which releases the id. The result is the full list of driver
calls issued by destruction, in order. -/
def TransformFeedback.destructor (tf : TransformFeedback) (refcount : Nat) :
    List TFCall :=
  (if !(isDeletable refcount) then []
   else if tf.state ≠ TFBstate.none then
     (TransformFeedback.bind tf).snd ++ (TransformFeedback.end_ tf).snd
   else [])
  ++ handleReleaseCalls tf.handle refcount

/-- Modelled from the spec: the reference-counted `Handle` of section 4.1
(the handle classes of general.hpp/globjects.hpp are not among the
sources): an opaque server-side id together with the shared reference
count. -/
structure Handle where
  id : Nat
  refcount : Nat
  deriving DecidableEq

/-- Modelled from the spec: `Handle.create()` allocates a new server-side
resource and returns a Handle with refcount 1. `freshName` stands for the
driver's choice of new object name; the driver never returns the reserved
name 0, modelled by using `freshName + 1` as the id. -/
def Handle.create (freshName : Nat) : Handle :=
  { id := freshName + 1, refcount := 1 }

/-- Modelled from the spec: `Handle.release()` decrements the refcount
and, at zero, issues the deletion call and marks `id = 0`; releasing an
already-released handle (refcount 0) is a no-op. Returns the updated
handle and the driver calls issued. -/
def Handle.release (h : Handle) : Handle × List TFCall :=
  match h.refcount with
  | 0 => (h, [])
  | 1 => ({ id := 0, refcount := 0 }, [TFCall.deleteTransformFeedbacks h.id])
  | Nat.succ (Nat.succ n) => ({ id := h.id, refcount := n + 1 }, [])

/-- A `Bitfield<Bit>` from general.hpp: a wrapped `GLbitfield`. Every
operation of the source converts a `Bit` enum value to its `GLbitfield`
representation before using it, so `Bit` values are modelled by their
`GLbitfield` bit patterns, i.e. by natural numbers. -/
structure Bitfield where
  bits_ : Nat
  deriving DecidableEq

/-- The default constructor `Bitfield() : bits_(0)`. -/
def Bitfield.empty : Bitfield :=
  { bits_ := 0 }

/-- `Bitfield::operator|(Bit b)`: returns `Bitfield{bits_ | b}`. -/
def Bitfield.orBit (f : Bitfield) (b : Nat) : Bitfield :=
  { bits_ := f.bits_ ||| b }

/-- `Bitfield::operator|(Bitfield b)`: returns `Bitfield{bits_ | b.bits_}`. -/
def Bitfield.orBits (f : Bitfield) (b : Bitfield) : Bitfield :=
  { bits_ := f.bits_ ||| b.bits_ }

/-- The initializer-list constructor
`Bitfield(const std::initializer_list<Bit>& bits)`: starts from
`bits_ = 0` and folds `bits_ |= b` over the listed bits. -/
def Bitfield.ofList (bits : List Nat) : Bitfield :=
  { bits_ := bits.foldl (fun acc b => acc ||| b) 0 }

/-- `Bitfield::test(Bit b)`: returns `(bits_ & b) == b`. -/
def Bitfield.test (f : Bitfield) (b : Nat) : Bool :=
  (f.bits_ &&& b) == b

/-- The predicate selecting the `glEndTransformFeedback` driver call. -/
def isEndCall : TFCall → Bool
  | TFCall.endTransformFeedback => true
  | _ => false

/-- The predicate selecting a `glDeleteTransformFeedbacks` driver call. -/
def isDeleteCall : TFCall → Bool
  | TFCall.deleteTransformFeedbacks _ => true
  | _ => false

/-- C1 (the code at the claim's failing input): the source's `begin`
performs no state check, so invoked on a TransformFeedback that is
already Active (`working`) it succeeds: it issues the driver begin call
and leaves the state `working`, raising no StateError; begin is accepted
from every state, not only from Idle. -/
theorem begin_while_active_issues_driver_call :
    TransformFeedback.begin ⟨7, TFBstate.working⟩ TFB_PrimType.Triangles
      = (⟨7, TFBstate.working⟩,
         [TFCall.beginTransformFeedback TFB_PrimType.Triangles]) := rfl

/-- C2: destroying a TransformFeedback in a non-Idle state as the last
owner issues exactly the trace bind, end, delete: the bind call and then
the end call precede the handle release, and the end call is observed
exactly once before the delete call. -/
theorem destructor_nonidle_bind_end_before_delete (id : Nat) (st : TFBstate)
    (h : st ≠ TFBstate.none) :
    TransformFeedback.destructor ⟨id, st⟩ 1
      = [TFCall.bindTransformFeedback id, TFCall.endTransformFeedback,
         TFCall.deleteTransformFeedbacks id] ∧
    ((TransformFeedback.destructor ⟨id, st⟩ 1).takeWhile
        (fun c => !(isDeleteCall c))).countP isEndCall = 1 := by
  have ht : TransformFeedback.destructor ⟨id, st⟩ 1
      = [TFCall.bindTransformFeedback id, TFCall.endTransformFeedback,
         TFCall.deleteTransformFeedbacks id] := by
    simp [TransformFeedback.destructor, isDeletable, handleReleaseCalls,
          TransformFeedback.bind, TransformFeedback.end_, h]
  refine ⟨ht, ?_⟩
  rw [ht]
  rfl

/-- C2 witness: destruction of a last-owner TransformFeedback in the
Active state at handle id 3. -/
theorem destructor_nonidle_witness :
    TransformFeedback.destructor ⟨3, TFBstate.working⟩ 1
      = [TFCall.bindTransformFeedback 3, TFCall.endTransformFeedback,
         TFCall.deleteTransformFeedbacks 3] :=
  (destructor_nonidle_bind_end_before_delete 3 TFBstate.working (by decide)).1

/-- C9: destroying a TransformFeedback in the Idle (`none`) state issues
no bind and no end driver calls: the trace is exactly the handle release. -/
theorem destructor_idle_no_bind_no_end (id rc : Nat) :
    TransformFeedback.destructor ⟨id, TFBstate.none⟩ rc
      = handleReleaseCalls id rc ∧
    (∀ b, TFCall.bindTransformFeedback b ∉
        TransformFeedback.destructor ⟨id, TFBstate.none⟩ rc) ∧
    TFCall.endTransformFeedback ∉
        TransformFeedback.destructor ⟨id, TFBstate.none⟩ rc := by
  have ht : TransformFeedback.destructor ⟨id, TFBstate.none⟩ rc
      = handleReleaseCalls id rc := by
    simp [TransformFeedback.destructor]
  refine ⟨ht, fun b => ?_, ?_⟩
  · rw [ht]
    unfold handleReleaseCalls
    split <;> simp
  · rw [ht]
    unfold handleReleaseCalls
    split <;> simp

/-- C6: starting from Idle, `begin` moves the state machine to Active
(`working`), `pause` to `paused`, `resume` back to `working` and `end`
back to `none`, each step succeeding and issuing its driver call. -/
theorem tfb_lifecycle_sequence (id : Nat) (mode : TFB_PrimType) :
    (TransformFeedback.begin ⟨id, TFBstate.none⟩ mode).fst.state
      = TFBstate.working ∧
    (TransformFeedback.begin ⟨id, TFBstate.none⟩ mode).snd
      = [TFCall.beginTransformFeedback mode] ∧
    (TransformFeedback.pause
        (TransformFeedback.begin ⟨id, TFBstate.none⟩ mode).fst).fst.state
      = TFBstate.paused ∧
    (TransformFeedback.pause
        (TransformFeedback.begin ⟨id, TFBstate.none⟩ mode).fst).snd
      = [TFCall.pauseTransformFeedback] ∧
    (TransformFeedback.resume (TransformFeedback.pause
        (TransformFeedback.begin ⟨id, TFBstate.none⟩ mode).fst).fst).fst.state
      = TFBstate.working ∧
    (TransformFeedback.resume (TransformFeedback.pause
        (TransformFeedback.begin ⟨id, TFBstate.none⟩ mode).fst).fst).snd
      = [TFCall.resumeTransformFeedback] ∧
    (TransformFeedback.end_ (TransformFeedback.resume (TransformFeedback.pause
        (TransformFeedback.begin ⟨id, TFBstate.none⟩ mode).fst).fst).fst).fst.state
      = TFBstate.none ∧
    (TransformFeedback.end_ (TransformFeedback.resume (TransformFeedback.pause
        (TransformFeedback.begin ⟨id, TFBstate.none⟩ mode).fst).fst).fst).snd
      = [TFCall.endTransformFeedback] :=
  ⟨rfl, rfl, rfl, rfl, rfl, rfl, rfl, rfl⟩

/-- C7: a created handle has a nonzero id; when the refcount drops from 1
to 0, release issues the deletion call exactly once and marks the id 0,
and a subsequent release is a no-op; release by a non-last owner issues
no calls, and the destructor of a non-last owner issues no end/delete
sequence at all. -/
theorem handle_release_no_double_free (n : Nat) (h : Handle) (id rc : Nat)
    (st : TFBstate) :
    (Handle.create n).id ≠ 0 ∧
    (h.refcount = 1 →
      h.release = ({ id := 0, refcount := 0 },
                   [TFCall.deleteTransformFeedbacks h.id]) ∧
      (h.release).fst.release = ((h.release).fst, [])) ∧
    (2 ≤ h.refcount → (h.release).snd = []) ∧
    (2 ≤ rc → TransformFeedback.destructor ⟨id, st⟩ rc = []) := by
  obtain ⟨hid, hrc⟩ := h
  refine ⟨Nat.succ_ne_zero n, ?_, ?_, ?_⟩
  · intro e
    simp only at e
    subst e
    exact ⟨rfl, rfl⟩
  · intro hge
    simp only at hge
    match hrc, hge with
    | Nat.succ (Nat.succ m), _ => rfl
  · intro hge
    match rc, hge with
    | Nat.succ (Nat.succ m), _ =>
      simp [TransformFeedback.destructor, isDeletable, handleReleaseCalls]

/-- C7 witness: releasing the last owner of handle 5 issues the delete
call and zeroes the id; the destructor of a non-last owner (refcount 2)
issues no calls. -/
theorem handle_release_witness :
    Handle.release ⟨5, 1⟩
      = ({ id := 0, refcount := 0 }, [TFCall.deleteTransformFeedbacks 5]) ∧
    TransformFeedback.destructor ⟨5, TFBstate.working⟩ 2 = [] :=
  ⟨((handle_release_no_double_free 0 ⟨5, 1⟩ 5 2 TFBstate.working).2.1 rfl).1,
   (handle_release_no_double_free 0 ⟨5, 1⟩ 5 2 TFBstate.working).2.2.2
     (by decide)⟩

/-- C3: binding resource A and then resource B (distinct ids) to the same
target leaves B current and A not current: at most one resource is
current per target category. -/
theorem bind_bind_at_most_one_current (bt : BufferType) (a b : Nat)
    (s : GLState) (h : a ≠ b) :
    BufferObject.isBound bt a
        (BufferObject.bind bt b (BufferObject.bind bt a s)) = false ∧
    BufferObject.isBound bt b
        (BufferObject.bind bt b (BufferObject.bind bt a s)) = true := by
  constructor
  · simp [BufferObject.isBound, BufferObject.bind, h]
  · simp [BufferObject.isBound, BufferObject.bind]

/-- C3 witness: buffers 1 and 2 bound in turn to the Array target. -/
theorem bind_bind_witness :
    BufferObject.isBound BufferType.Array 1
        (BufferObject.bind BufferType.Array 2
          (BufferObject.bind BufferType.Array 1 freshState)) = false ∧
    BufferObject.isBound BufferType.Array 2
        (BufferObject.bind BufferType.Array 2
          (BufferObject.bind BufferType.Array 1 freshState)) = true :=
  bind_bind_at_most_one_current BufferType.Array 1 2 freshState (by decide)

/-- C4: for a created (nonzero-id) resource, bind followed by isBound
yields true; unbind from the bound state succeeds (under either
validation setting) and afterwards isBound yields false. -/
theorem bind_unbind_is_current (bindcheck : Bool) (bt : BufferType)
    (id : Nat) (s : GLState) (h : id ≠ 0) :
    BufferObject.isBound bt id (BufferObject.bind bt id s) = true ∧
    BufferObject.unbind bindcheck bt id (BufferObject.bind bt id s)
      = Except.ok (BufferObject.Unbind bt (BufferObject.bind bt id s)) ∧
    BufferObject.isBound bt id
        (BufferObject.Unbind bt (BufferObject.bind bt id s)) = false := by
  refine ⟨?_, ?_, ?_⟩
  · simp [BufferObject.isBound, BufferObject.bind]
  · simp [BufferObject.unbind, CHECK_BINDING2, BufferObject.isBound,
          BufferObject.bind]
  · simp [BufferObject.isBound, BufferObject.Unbind, BufferObject.bind, h]

/-- C4 witness: buffer 1 on the Texture target with validation enabled. -/
theorem bind_unbind_witness :
    BufferObject.isBound BufferType.Texture 1
        (BufferObject.bind BufferType.Texture 1 freshState) = true ∧
    BufferObject.isBound BufferType.Texture 1
        (BufferObject.Unbind BufferType.Texture
          (BufferObject.bind BufferType.Texture 1 freshState)) = false :=
  ⟨(bind_unbind_is_current true BufferType.Texture 1 freshState (by decide)).1,
   (bind_unbind_is_current true BufferType.Texture 1 freshState
      (by decide)).2.2⟩

/-- C5 counterexample: with validation enabled, resource 3 is not the
current buffer for the Texture target (buffer 5 is bound), yet the map
constructor proceeds: it issues `glMapBuffer` and the size query instead
of failing with a BindingError, because the source `TypedMap` constructor
holds no buffer member and can only test the binding against the default
object 0. -/
theorem map_guard_counterexample :
    BufferObject.isBound BufferType.Texture 3 boundFiveState = false ∧
    BufferObject.typedMap Nat true BufferType.Texture 2 boundFiveState
      = Except.ok [BufferCall.mapBuffer BufferType.Texture 2,
                   BufferCall.getBufferParameteriv BufferType.Texture] :=
  ⟨rfl, rfl⟩

/-- C5 (amended): with validation enabled, `data` and `subData` invoked
while the resource is not the current one for its target fail with a
BindingError and issue no driver call; the map constructor, which holds
no resource, instead fails with a BindingError exactly when the target's
current binding is the default object 0; with validation disabled all
three proceed directly to the driver with no check. -/
theorem bindcheck_toggle_amended {Ptr : Type} (bt : BufferType)
    (buffer_ size access : Nat) (ptr : Ptr) (usage : BufferUsage)
    (offset : Int) (s : GLState)
    (h : BufferObject.isBound bt buffer_ s = false) :
    BufferObject.data true bt buffer_ size ptr usage s
      = Except.error OglError.BindingError ∧
    BufferObject.subData true bt buffer_ offset size ptr s
      = Except.error OglError.BindingError ∧
    BufferObject.typedMap Ptr true bt access s
      = (if s.boundBuffer bt == 0 then Except.error OglError.BindingError
         else Except.ok [BufferCall.mapBuffer bt access,
                         BufferCall.getBufferParameteriv bt]) ∧
    BufferObject.data false bt buffer_ size ptr usage s
      = Except.ok (BufferObject.Data bt size ptr usage) ∧
    BufferObject.subData false bt buffer_ offset size ptr s
      = Except.ok (BufferObject.SubData bt offset size ptr) ∧
    BufferObject.typedMap Ptr false bt access s
      = Except.ok [BufferCall.mapBuffer bt access,
                   BufferCall.getBufferParameteriv bt] := by
  refine ⟨?_, ?_, ?_, ?_, ?_, ?_⟩
  · simp [BufferObject.data, CHECK_BINDING, h]
  · simp [BufferObject.subData, CHECK_BINDING, h]
  · cases hb : s.boundBuffer bt == 0 <;>
      simp [BufferObject.typedMap, CHECK_FOR_DEFAULT_BINDING, hb]
  · simp [BufferObject.data, CHECK_BINDING,
          CHECK_FOR_DEFAULT_BINDING_EXPLICIT]
  · simp [BufferObject.subData, CHECK_BINDING,
          CHECK_FOR_DEFAULT_BINDING_EXPLICIT]
  · simp [BufferObject.typedMap, CHECK_FOR_DEFAULT_BINDING]

/-- C5 witness: buffer 1 on the Texture target while buffer 0 is bound:
enabled validation rejects the upload with a BindingError, disabled
validation forwards it to the driver. -/
theorem bindcheck_toggle_amended_witness :
    BufferObject.data true BufferType.Texture 1 4 (5 : Nat) 0 freshState
      = Except.error OglError.BindingError ∧
    BufferObject.data false BufferType.Texture 1 4 (5 : Nat) 0 freshState
      = Except.ok (BufferObject.Data BufferType.Texture 4 (5 : Nat) 0) :=
  ⟨(bindcheck_toggle_amended BufferType.Texture 1 4 2 (5 : Nat) 0 0 freshState
      (by rfl)).1,
   (bindcheck_toggle_amended BufferType.Texture 1 4 2 (5 : Nat) 0 0 freshState
      (by rfl)).2.2.2.1⟩

/-- C8: the vector overloads of Data and SubData issue exactly the driver
call of the pointer overloads at size = v.size() * sizeof(GLtype) and
ptr = v.data(): the two overload families are equivalent. -/
theorem vector_pointer_overload_equivalence {Ptr : Type} (bt : BufferType)
    (sizeofGLtype : Nat) (v : CppVector Ptr) (usage : BufferUsage)
    (offset : Int) :
    BufferObject.DataVec bt sizeofGLtype v usage
      = BufferObject.Data bt (v.size * sizeofGLtype) v.data usage ∧
    BufferObject.SubDataVec bt offset sizeofGLtype v
      = BufferObject.SubData bt offset (v.size * sizeofGLtype) v.data :=
  ⟨rfl, rfl⟩

/-- Folding `operator|(Bit)` over a list of bits equals the raw or-fold
on the underlying bit patterns, for any starting accumulator. -/
theorem Bitfield.foldl_orBit (l : List Nat) (acc : Nat) :
    l.foldl Bitfield.orBit { bits_ := acc }
      = { bits_ := l.foldl (fun a b => a ||| b) acc } := by
  induction l generalizing acc with
  | nil => rfl
  | cons x xs ih => simpa [Bitfield.orBit] using ih (acc ||| x)

/-- C10: or-ing a bit into a Bitfield makes `test` of that bit true; the
initializer-list constructor equals chaining `operator|` from the empty
Bitfield; and `test x` returns true exactly when every bit of `x` is set
in the field. -/
theorem bitfield_or_test_ofList (f : Bitfield) (b x : Nat) (l : List Nat) :
    (f.orBit b).test b = true ∧
    Bitfield.ofList l = l.foldl Bitfield.orBit Bitfield.empty ∧
    (f.test x = true ↔
      ∀ i, x.testBit i = true → f.bits_.testBit i = true) := by
  refine ⟨?_, ?_, ?_⟩
  · have hland : (f.bits_ ||| b) &&& b = b := by
      apply Nat.eq_of_testBit_eq
      intro i
      cases hb : b.testBit i <;>
        simp [Nat.testBit_land, Nat.testBit_lor, hb]
    simp [Bitfield.test, Bitfield.orBit, hland]
  · simpa [Bitfield.ofList, Bitfield.empty] using
      (Bitfield.foldl_orBit l 0).symm
  · simp only [Bitfield.test, beq_iff_eq]
    constructor
    · intro hand i hx
      have hbit := congrArg (fun n => n.testBit i) hand
      simpa [Nat.testBit_land, hx] using hbit
    · intro hall
      apply Nat.eq_of_testBit_eq
      intro i
      cases hx : x.testBit i
      · simp [Nat.testBit_land, hx]
      · simp [Nat.testBit_land, hx, hall i hx]

end Oglwrap
